import Mathlib

/-
Verification of the up-template unit-process report toolkit.

The development shallowly embeds the two subsystems of the repository:
the report assembler (`NetlOlcaReport.py`) and the menu-driven command
interpreter (`Interface.py`).  Pure formatting routines become Lean
functions on strings (represented where convenient as `List Char`);
the interpreter's interactive prompt machinery becomes explicit
state-passing functions over an `InterfaceState`, an `Env` record of
external collaborators (file system, data source, converter), and a
list of pending user input lines.  Console output does not influence
control flow or state in the source, so print statements are not
modelled; input consumption and state mutation are modelled exactly.
-/

namespace UpTemplate

/-! ## Python string primitives -/

/-- Python `str.lower` restricted to ASCII case mapping (all text handled
by the repository is ASCII). -/
def pyLower (s : String) : String := String.mk (s.data.map Char.toLower)

/-- Python `str.upper` restricted to ASCII case mapping. -/
def pyUpper (s : String) : String := String.mk (s.data.map Char.toUpper)

/-- The ASCII whitespace characters recognized by Python's `str.isspace`,
`str.strip`/`str.rstrip` and the regex class `\s`. -/
def pyIsSpaceChar (c : Char) : Bool :=
  c = ' ' || c = '\t' || c = '\n' || c = '\x0d' || c = '\x0b' || c = '\x0c'

/-- Python `str.isspace`: non-empty and all characters whitespace. -/
def pyIsSpace (s : String) : Bool := s ≠ "" && s.data.all pyIsSpaceChar

/-- Trailing-whitespace removal on character lists (Python `str.rstrip()`
with default argument). -/
def rstripChars (l : List Char) : List Char :=
  (l.reverse.dropWhile pyIsSpaceChar).reverse

/-- Python `str.rstrip()` with the default whitespace argument. -/
def rstrip (s : String) : String := String.mk (rstripChars s.data)

/-- Leading- and trailing-whitespace removal (Python `str.strip()`),
used by `int()` before parsing. -/
def stripChars (l : List Char) : List Char :=
  ((l.dropWhile pyIsSpaceChar).reverse.dropWhile pyIsSpaceChar).reverse

/-- Digit-sequence parser for Python `int()`: digits, with single
underscores permitted between digits. -/
def parseDigitsAux : List Char → Nat → Option Nat
  | [], acc => some acc
  | c :: cs, acc =>
    if c.isDigit then parseDigitsAux cs (acc * 10 + (c.toNat - 48))
    else if c = '_' then
      match cs with
      | d :: _ => if d.isDigit then parseDigitsAux cs acc else none
      | [] => none
    else none

/-- Python `int(s)`: strip whitespace, optional sign, decimal digits
(with optional single grouping underscores); `none` models the
`ValueError` raised on any other input. -/
def pyInt (s : String) : Option Int :=
  match stripChars s.data with
  | [] => none
  | '+' :: rest =>
    match rest with
    | [] => none
    | r :: _ => if r.isDigit then (parseDigitsAux rest 0).map (fun n => (n : Int)) else none
  | '-' :: rest =>
    match rest with
    | [] => none
    | r :: _ => if r.isDigit then (parseDigitsAux rest 0).map (fun n => -(n : Int)) else none
  | c :: rest =>
    if c.isDigit then (parseDigitsAux (c :: rest) 0).map (fun n => (n : Int)) else none

/-- One pass of `re.sub("[class]+", "_", text)`: every maximal run of
characters matching `p` is replaced by a single underscore.  The flag
records whether the previous character belonged to a run. -/
def replaceRunsAux (p : Char → Bool) : Bool → List Char → List Char
  | _, [] => []
  | prev, c :: cs =>
    if p c then
      if prev then replaceRunsAux p true cs
      else '_' :: replaceRunsAux p true cs
    else c :: replaceRunsAux p false cs

/-- `re.sub` of a character-class-plus pattern by `"_"`. -/
def replaceRuns (p : Char → Bool) (l : List Char) : List Char :=
  replaceRunsAux p false l

/-- Python `str.title` for ASCII text: the first letter of every
alphabetic run is upper-cased, the rest lower-cased. -/
def pyTitleAux : Bool → List Char → List Char
  | _, [] => []
  | prev, c :: cs =>
    if c.isAlpha then (if prev then c.toLower else c.toUpper) :: pyTitleAux true cs
    else c :: pyTitleAux false cs

/-- Python `str.title` (ASCII). -/
def pyTitle (s : String) : String := String.mk (pyTitleAux false s.data)

/-- Universal-newline translation performed by `open(..)` in text mode:
`"\r\n"` and lone `"\r"` both become `"\n"`. -/
def univNlChars : List Char → List Char
  | [] => []
  | c :: cs =>
    if c = '\x0d' then
      match cs with
      | d :: rest =>
        if d = '\n' then '\n' :: univNlChars rest
        else '\n' :: univNlChars (d :: rest)
      | [] => ['\n']
    else c :: univNlChars cs

/-- Python `file.readlines` on already newline-translated content:
split after every `'\n'`, keeping terminators; a final fragment without
a terminator is kept as-is; an empty file yields no lines. -/
def readlinesAux (cur : List Char) : List Char → List (List Char)
  | [] => if cur.isEmpty then [] else [cur.reverse]
  | c :: cs =>
    if c = '\n' then (cur.reverse ++ ['\n']) :: readlinesAux [] cs
    else readlinesAux (c :: cur) cs

/-- Lines of a text file as `readlines` returns them. -/
def pyReadlines (l : List Char) : List (List Char) := readlinesAux [] l

/-- Escape every occurrence of character `t` in a character list with a
preceding backslash, as `re.sub("[t]", "\\t", s)` does. -/
def escapeChar (t : Char) (l : List Char) : List Char :=
  l.flatMap (fun c => if c = t then ['\\', c] else [c])

/-- Markdown escaping used by `_fix_formula`'s fallback branch:
`re.sub("[*]", "\\*", ..)` followed by `re.sub("[_]", "\\_", ..)`. -/
def escapeMd (s : String) : String :=
  String.mk (escapeChar '_' (escapeChar '*' s.data))

/-- Python single-character `str.replace(a, b)` (character-wise map;
the repository only replaces one-character patterns). -/
def replaceChar (a b : Char) (s : String) : String :=
  String.mk (s.data.map (fun c => if c = a then b else c))

/-- Python `str.startswith` for a one-character pattern. -/
def startsWithChar (a : Char) (s : String) : Bool :=
  match s.data with
  | [] => false
  | c :: _ => c = a

/-- Python truthiness combinator `x or d` for an optional string field:
`None` and the empty string both fall back to the default. -/
def pyOr (v : Option String) (d : String) : String :=
  match v with
  | none => d
  | some s => if s = "" then d else s

/-- Python truthiness of an optional string (`None` and `""` are falsy). -/
def pyTruthy (v : Option String) : Bool :=
  match v with
  | none => false
  | some s => s ≠ ""

/-- Drop every trailing `'\n'` of a string (used to state the claim's
"modulo trailing-newline normalization"). -/
def dropTrailingNl (s : String) : String :=
  String.mk ((s.data.reverse.dropWhile (· = '\n')).reverse)

/-- Code-point lexicographic comparison of character lists; this is the
order Python's `sorted` uses on strings. -/
def charListLe : List Char → List Char → Bool
  | [], _ => true
  | _ :: _, [] => false
  | a :: as, b :: bs => if a = b then charListLe as bs else decide (a < b)

/-- Python string comparison `a <= b`. -/
def strLe (a b : String) : Bool := charListLe a.data b.data

/-- Stable insertion into a `strLe`-sorted list. -/
def insertSorted (x : String) : List String → List String
  | [] => [x]
  | y :: ys => if strLe x y then x :: y :: ys else y :: insertSorted x ys

/-- Python `sorted` on a list of strings (insertion sort; stable,
ascending code-point lexicographic). -/
def sortStr : List String → List String
  | [] => []
  | x :: xs => insertSorted x (sortStr xs)

/-- Boolean check that a list of strings is ascending under `strLe`
(adjacent pairs ordered). -/
def chainSorted : List String → Bool
  | [] => true
  | [_] => true
  | a :: b :: rest => strLe a b && chainSorted (b :: rest)

/-! ## Report assembler (`NetlOlcaReport.py`) -/

/-- The default NETL disclaimer built in `NetlOlcaReport.__init__`. -/
def disclaimer : String :=
  "This report was prepared as an account of work sponsored by an agency " ++
  "of the United States Government. Neither the United States Government " ++
  "nor any agency thereof, nor any of their employees, makes any warranty, " ++
  "express or implied, or assumes any legal liability or responsibility " ++
  "for the accuracy, completeness, or usefulness of any information, " ++
  "apparatus, product, or process disclosed, or represents that its use " ++
  "would not infringe privately owned rights. Reference herein to any " ++
  "specific commercial product, process, or service by trade name, " ++
  "trademark, manufacturer, or otherwise does not necessarily constitute " ++
  "or imply its endorsement, recommendation, or favoring by the United " ++
  "States Government or any agency thereof. The views and opinions of " ++
  "authors expressed herein do not necessarily state or reflect those of " ++
  "the United States Government or any agency thereof."

/-- The report document model: every `NetlOlcaReport` attribute read by
`create_report_markdown`.  `none` is Python `None`; all attributes start
unset and `sources` starts empty, as in `__init__`. -/
structure ReportFields where
  create_date : Option String := none
  reference_name : Option String := none
  reference_flow : Option String := none
  reference_description : Option String := none
  boundary_doc : Option String := none
  input_flows : Option String := none
  output_flows : Option String := none
  process_doc : Option String := none
  param_table : Option String := none
  project_doc : Option String := none
  poc : Option String := none
  version : Option String := none
  allocation_info : Option String := none
  sources : List String := []
  calculations_content : Option String := none

/-- The field state set up by `NetlOlcaReport.__init__`. -/
def initReportFields : ReportFields := {}

/-- `create_report_markdown`.  The Python method reads the wall clock
(`datetime.datetime.now().date()`) when `create_date` is unset; that
hidden input is made explicit here as the `nowDate` argument.  The
template text is transcribed verbatim from the source f-string,
including its final newline-plus-indentation. -/
def createReportMarkdown (f : ReportFields) (nowDate : String) : String :=
  let create_date := pyOr f.create_date nowDate
  let ref_name := pyOr f.reference_name "N/A"
  let ref_flow := pyOr f.reference_flow "N/A"
  let process_desc := pyOr f.reference_description "N/A"
  let boundary_desc := pyOr f.boundary_doc "Detailed boundary description not available"
  let input_flows_md := pyOr f.input_flows "No input flows available."
  let output_flows_md := pyOr f.output_flows "No output flows available."
  let process_doc_md := pyOr f.process_doc "No process documentation available."
  let param_table_md := pyOr f.param_table "None"
  let project_doc_md := pyOr f.project_doc "No goal or scope info available."
  let project_poc_md := pyOr f.poc "NETL"
  let version_number := pyOr f.version "1.0.0"
  let allocation_md := pyOr f.allocation_info "No allocation"
  let sources_md :=
    if f.sources.length > 0 then String.intercalate "\n\n" f.sources else "None"
  let calculations_md := pyOr f.calculations_content "No calculations available."
  "# Overview\n\n## Process Name\n" ++ ref_name ++
  "\n\n## Reference Flow\n" ++ ref_flow ++
  "\n\n## Brief Description\n" ++ process_desc ++
  "\n\n# Metadata\n" ++ process_doc_md ++
  "\n\n## Relevant Flows Included:\n\nReleases to Air\n:   - [ ] Greenhouse Gases\n" ++
  "    - [ ] Criteria Air Pollutants\n    - [ ] Other\n\nReleases to Water\n" ++
  ":   - [ ] Inorganic Emissions\n    - [ ] Organic Emissions\n    - [ ] Other\n\n" ++
  "Releases to Soil\n:   - [ ] Inorganic Emissions\n    - [ ] Organic Emissions\n" ++
  "    - [ ] Other\n\nWater Usage\n:   - [ ] Water Demand\n" ++
  "    - [ ] Water Consumption\n\n\n# Process Description\n\n## Goal & Scope\n" ++
  project_doc_md ++
  "\n\n## Boundary & Description\n" ++ boundary_desc ++
  "\n\n## Methods\n\n### Block Flow Diagram\nLink to your block flow diagram.\n" ++
  "For example:\n\n```sh\n![](data/diagram.png)\n```\n\n### Input Flows\n" ++
  input_flows_md ++
  "\n\n## Output Flows\n" ++ output_flows_md ++
  "\n\n### Process Parameters\n" ++ param_table_md ++
  "\n\n### Allocation\n" ++ allocation_md ++
  "\n\n### Calculations\n" ++ calculations_md ++
  "\n\n## References\n" ++ sources_md ++
  "\n\n# Document Control Information\nDate Created\n:   " ++ create_date ++
  "\n\nPoint of Contact\n:   " ++ project_poc_md ++
  "\n\nRevision History\n:   " ++ version_number ++
  "\n\nHow to Cite This Document\n:   TBA\n\n# Disclaimer/Terms of Use\n" ++
  disclaimer ++ "\n        "

/-- `save_markdown`: the report is re-rendered from field state and
written verbatim as UTF-8 text with `newline='\n'` (no translation of
the content takes place); the result is the written file's content. -/
def saveMarkdown (f : ReportFields) (nowDate : String) : String :=
  createReportMarkdown f nowDate

/-- `read_report_markdown` applied to a file with the given content:
text-mode reading applies universal-newline translation, then the
method accumulates `line.rstrip() + "\n"` over `readlines()`. -/
def readReportMarkdown (content : String) : String :=
  String.mk ((pyReadlines (univNlChars content.data)).foldl
    (fun acc line => acc ++ rstripChars line ++ ['\n']) [])

/-- Per-line normalization stated from the spec's reading of the cycle:
each line, stripped of trailing whitespace and re-terminated with a
newline. -/
def normalizeLineWs (content : String) : String :=
  String.mk (((pyReadlines (univNlChars content.data)).map
    (fun line => rstripChars line ++ ['\n'])).flatten)

/-! ## Filename derivation (`get_file_name`) -/

/-- The class attribute `valid_ext`. -/
def validExt : List String := [".md", ".txt", ".docx", ".html", ".pdf"]

/-- The character class of the second substitution in `get_file_name`:
`[/@.,&'\\(|)<>#;]`. -/
def specialChar (c : Char) : Bool :=
  c = '/' || c = '@' || c = '.' || c = ',' || c = '&' || c = '\'' ||
  c = '\\' || c = '(' || c = '|' || c = ')' || c = '<' || c = '>' ||
  c = '#' || c = ';'

/-- A single-quote character as a string (for the error message text). -/
def sq : String := String.mk ['\'']

/-- Extension normalization prefix of `get_file_name`: lower-case, then
prepend a dot when missing. -/
def extNorm (ext : String) : String :=
  let e := pyLower ext
  if startsWithChar '.' e then e else "." ++ e

/-- The silent `.txt` to `.md` rewrite of `get_file_name`. -/
def txtToMd (e : String) : String := if e = ".txt" then ".md" else e

/-- `get_file_name`: `Except.error` models the `ValueError` raised for
an unrecognized extension.  The three `re.sub` passes and the
trailing-underscore drop are transcribed from the source; the source
indexes `r_name[-1]`, which is only reached with a non-empty name, so
the `getLast?` match is equivalent. -/
def getFileName (referenceName : Option String) (ext : String) : Except String String :=
  let e2 := extNorm ext
  if e2 ∉ validExt then
    .error ("Invalid file extension: " ++ sq ++ e2 ++ sq)
  else
    let e3 := txtToMd e2
    if pyTruthy referenceName then
      let nm := referenceName.getD ""
      let r1 := replaceRuns pyIsSpaceChar nm.data
      let r2 := replaceRuns specialChar r1
      let r3 := replaceRuns (fun c => c == '_') r2
      let r4 :=
        match r3.getLast? with
        | some '_' => r3.dropLast
        | _ => r3
      .ok (String.mk r4 ++ e3)
    else
      .ok ("report" ++ e3)

/-- The sanitization class stated by the spec, taken as one pass:
whitespace, the special characters, and the underscore itself. -/
def sanitizeClassChar (c : Char) : Bool :=
  pyIsSpaceChar c || specialChar c || c == '_'

/-- Filename stem derivation as the spec words it: collapse every run
of whitespace/special/underscore characters to a single underscore and
drop a trailing underscore. -/
def specSanitize (nm : String) : String :=
  let r := replaceRuns sanitizeClassChar nm.data
  let r :=
    match r.getLast? with
    | some '_' => r.dropLast
    | _ => r
  String.mk r

/-! ## Formula rendering (`_fix_formula`) -/

/-- `_fix_formula`.  `sym` models the composite
`sympy.latex(sympy.sympify(..))`: `none` is a raised parsing exception,
`some t` the LaTeX text.  `p_name`/`f_txt` are `Option String` (the
source's `x != x` NaN guards concern pandas floats and cannot arise for
string inputs).  The `in_line = true` success branch evaluates the
malformed format string of the source, which raises
`ValueError: incomplete format`; `Except.error` models that.  All call
sites in the repository use `in_line = false`. -/
def fixFormula (sym : String → Option String) (pName fTxt : Option String)
    (inLine : Bool) : Except String String :=
  if pyTruthy fTxt = false then .ok ""
  else
    let ft := fTxt.getD ""
    let hasName := pyTruthy pName
    let nm := pName.getD ""
    let leftSide := if hasName then sym nm else some ""
    let rightSide := sym ft
    match leftSide, rightSide with
    | some l, some r =>
      let t := if hasName then l ++ " = " ++ r else r
      if inLine then .error "incomplete format"
      else .ok ("$$\n" ++ t ++ "\n$$")
    | _, _ =>
      let t := if hasName then nm ++ " = " ++ ft else ft
      .ok (escapeMd t)

/-! ## Uncertainty rendering (`_fix_uncertainty`) -/

/-- olca-schema `Uncertainty` as read by `_fix_uncertainty`:
the distribution-type enum name plus the seven optional numeric
members, kept as their Python `str()` renderings since the function
only interpolates them into text. -/
structure Uncertainty where
  distribution_type : String
  geom_mean : Option String := none
  geom_sd : Option String := none
  maximum : Option String := none
  mean : Option String := none
  minimum : Option String := none
  mode : Option String := none
  sd : Option String := none

/-- olca-schema `Parameter` restricted to the only attribute
`_fix_uncertainty` reads. -/
structure Parameter where
  uncertainty : Option Uncertainty := none

/-- `_fix_uncertainty`: `"none"` without uncertainty data; otherwise the
title-cased distribution name and the `name:value` pairs of the
non-null members, joined by commas inside parentheses. -/
def fixUncertainty (param : Parameter) : String :=
  match param.uncertainty with
  | none => "none"
  | some u =>
    let uType := pyTitle (replaceChar '_' ' ' u.distribution_type)
    let uNames := ["gmean", "gsdev", "max", "ave", "min", "mode", "sdev"]
    let uVals := [u.geom_mean, u.geom_sd, u.maximum, u.mean, u.minimum, u.mode, u.sd]
    let pairs := (uNames.zip uVals).filterMap
      (fun nv => nv.2.map (fun v => nv.1 ++ ":" ++ v))
    uType ++ " (" ++ String.intercalate ", " pairs ++ ")"

/-- A single optional `name:value` segment, for the spec-side statement
of uncertainty rendering. -/
def optPair (nm : String) (v : Option String) : List String :=
  match v with
  | none => []
  | some s => [nm ++ ":" ++ s]

/-- Uncertainty rendering as the spec words it: the seven members in
their fixed order, each contributing a segment exactly when non-null. -/
def specUncertainty (u : Uncertainty) : String :=
  pyTitle (replaceChar '_' ' ' u.distribution_type) ++ " (" ++
    String.intercalate ", "
      (optPair "gmean" u.geom_mean ++ optPair "gsdev" u.geom_sd ++
       optPair "max" u.maximum ++ optPair "ave" u.mean ++
       optPair "min" u.minimum ++ optPair "mode" u.mode ++
       optPair "sdev" u.sd) ++ ")"

/-! ## Command interpreter (`Interface.py`)

The interpreter is embedded as explicit state passing: every prompt
routine maps an `InterfaceState`, an environment of external
collaborators, and the list of pending user input lines to a result
triple `(is_done, state, remaining_input)`.  Console printing never
feeds back into state or control flow in the source and is not
modelled; `while not is_done` loops take a fuel argument and report
`false` when the fuel runs out with the loop still live (modelling
divergence), so that code after a loop is only reached when the loop
actually finishes. -/

/-- The option codes of the `params` table, in insertion order. -/
def paramCodes : List String :=
  ["1", "1a", "1b", "2", "2a", "2b", "3", "3a", "3b", "3c", "3d",
   "4", "4a", "4b", "4c", "5", "5a", "5b", "5c", "6", "7",
   "q", "h", "m", "o", "e", "e1", "e2", "p"]

/-- The `type` (category) entry of each option in the `params` table. -/
def paramTypeList : List (String × String) :=
  [("1", "option"), ("1a", "connection_json"), ("1b", "connection_json"),
   ("2", "option"), ("2a", "connection_olca"), ("2b", "connection_olca"),
   ("3", "option"), ("3a", "query"), ("3b", "query"), ("3c", "query"),
   ("3d", "query"), ("4", "option"), ("4a", "report"), ("4b", "report"),
   ("4c", "report"), ("5", "option"), ("5a", "publish"), ("5b", "publish"),
   ("5c", "publish"), ("6", "option"), ("7", "option"), ("q", "option"),
   ("h", "option"), ("m", "option"), ("o", "option"), ("e", "misc"),
   ("e1", "edit"), ("e2", "edit"), ("p", "misc")]

/-- Category lookup for an option code. -/
def paramType (c : String) : String := (paramTypeList.lookup c).getD ""

/-- The initial `show` flag of each option in the `params` table
(`True` except for the post-connection options `3 4 5 6 7 o` and the
navigation options `q h m`). -/
def initShow (c : String) : Bool :=
  ["1", "1a", "1b", "2", "2a", "2b", "3a", "3b", "3c", "3d",
   "4a", "4b", "4c", "5a", "5b", "5c", "e", "e1", "e2", "p"].contains c

/-- The option codes a category sub-menu iterates over: all codes in
Python `sorted` order, filtered to the given category and the current
visibility flags.  This is the loop body shared by `connect_json`,
`connect_olca`, `query`, `handle_report_generation`,
`handle_report_publication`, `edit`, `show_misc` and `show_options`. -/
def menuCategoryCodes (cat : String) (visible : String → Bool) : List String :=
  (sortStr paramCodes).filter (fun k => paramType k == cat && visible k)

/-- `connect_json`: option codes printed, in order.  (The method also
re-reads the working directory first; that affects `json_set` only,
never which codes are printed.) -/
def connect_json_codes (visible : String → Bool) : List String :=
  menuCategoryCodes "connection_json" visible ++ ["m", "q"]

/-- `connect_olca`: option codes printed, in order. -/
def connect_olca_codes (visible : String → Bool) : List String :=
  menuCategoryCodes "connection_olca" visible ++ ["m", "q"]

/-- `query`: option codes printed, in order; the source prints the
filtered query options and then only the `q` line. -/
def query_codes (visible : String → Bool) : List String :=
  menuCategoryCodes "query" visible ++ ["q"]

/-- `handle_report_generation`: option codes printed, in order. -/
def report_menu_codes (visible : String → Bool) : List String :=
  menuCategoryCodes "report" visible ++ ["m", "q"]

/-- `handle_report_publication`: option codes printed, in order; when
pandoc is missing and the user chose to continue anyway
(`pandocRequired = true`), the category options are suppressed. -/
def publish_menu_codes (pandocRequired : Bool) (visible : String → Bool) : List String :=
  ((sortStr paramCodes).filter
    (fun k => paramType k == "publish" && visible k && !pandocRequired)) ++ ["m", "q"]

/-- `edit`: option codes printed, in order. -/
def edit_codes (visible : String → Bool) : List String :=
  menuCategoryCodes "edit" visible ++ ["m", "q"]

/-- `show_misc`: option codes printed, in order. -/
def misc_codes (visible : String → Bool) : List String :=
  menuCategoryCodes "misc" visible ++ ["m", "q"]

/-- `show_options` (main menu): option codes printed, then only `q`. -/
def main_menu_codes (visible : String → Bool) : List String :=
  menuCategoryCodes "option" visible ++ ["q"]

/-- The mutable interpreter state of `Interface` (attributes set in
`__init__` plus the per-option visibility flags and the report
attributes the embedded methods write: `rd.reference_name` and the
process code, which the `process_code` property stores on `rd`).
`netl_port` stands for the external `NetlOlca` member's port. -/
structure InterfaceState where
  is_okay : Bool
  is_running : Bool
  hidden_state : Int
  json_set : List String
  calc_set : List String
  calc_dir : String
  calc_file : String
  work_dir : String
  work_file : String
  netl_port : String
  product_sys_uid : String
  process_code : String
  rd_reference_name : Option String
  visible : String → Bool

/-- The state `Interface.__init__` builds (the initial port value lives
in the external `NetlOlca` instance; its concrete value is irrelevant
to every embedded method). -/
def initInterfaceState : InterfaceState :=
  { is_okay := true, is_running := false, hidden_state := 0,
    json_set := [], calc_set := [], calc_dir := "calculations",
    calc_file := "", work_dir := "data", work_file := "",
    netl_port := "8080", product_sys_uid := "", process_code := "BP",
    rd_reference_name := none, visible := initShow }

/-- The external collaborators: file system probes, directory listings,
and the `NetlOlca` data-source operations, reduced to their observable
outcomes. -/
structure Env where
  isDir : String → Bool
  isFile : String → Bool
  jsonFiles : String → List String
  excelFiles : String → List String
  openOk : String → Bool
  readOk : Bool
  portOk : String → Bool
  numPS : Nat
  psIds : List String
  refName : String → String
  actorNames : List String
  actorUuids : List String
  setReviewerOk : String → Bool
  yamlActorCount : Nat
  addActorOk : Nat → Bool

/-- Consume one line of user input (`input()`). -/
def readLine (ins : List String) : String × List String :=
  (ins.headD "", ins.tail)

/-- `quit`: clear the running flag and poison the hidden state. -/
def quitInterface (s : InterfaceState) : InterfaceState :=
  { s with is_running := false, hidden_state := -1 }

/-- `check_val`: quit keywords stop the session; blank or
whitespace-only input skips the assignment; anything else continues. -/
def checkVal (s : InterfaceState) (val : String) : Bool × InterfaceState :=
  if pyLower val == "q" || pyLower val == "quit" then (true, quitInterface s)
  else if pyIsSpace val || val == "" then (true, s)
  else (false, s)

/-- `check_ans`: read a confirmation line; only `y`/`yes`
(case-insensitively) counts as confirmation. -/
def checkAns (ins : List String) : Bool × List String :=
  let (ans, ins) := readLine ins
  (pyLower ans == "y" || pyLower ans == "yes", ins)

/-- `make_param_visible`: flip one option's visibility flag.  The
source raises `ValueError` for an unknown code; every call site passes
a literal valid code, so that branch is modelled as the identity. -/
def makeParamVisible (s : InterfaceState) (p : String) (v : Bool) : InterfaceState :=
  if p ∈ paramCodes then
    { s with visible := fun c => if c = p then v else s.visible c }
  else s

/-- `load_json_set`: refresh `json_set` from the directory when it
exists, then derive `is_okay` from the number of JSON files found. -/
def loadJsonSet (env : Env) (s : InterfaceState) (dir : String) : InterfaceState :=
  let s := if env.isDir dir then { s with json_set := env.jsonFiles dir } else s
  if s.json_set.length > 0 then { s with is_okay := true }
  else { s with is_okay := false }

/-- `load_excel_set`: refresh `calc_set`; the source then tests
`num_files` — the JSON-file count — rather than `num_workbooks`, and
that is transcribed as found. -/
def loadExcelSet (env : Env) (s : InterfaceState) (dir : String) : InterfaceState :=
  let s := if env.isDir dir then { s with calc_set := env.excelFiles dir } else s
  if s.json_set.length > 0 then { s with is_okay := true }
  else { s with is_okay := false }

/-- `set_working_dir`: accept an existing directory containing JSON-LD
files; on success re-scan it and commit. -/
def setWorkingDir (env : Env) (s : InterfaceState) (val : String) :
    Bool × InterfaceState :=
  if env.isDir val && !(env.jsonFiles val).isEmpty then
    let s := loadJsonSet env s val
    (true, { s with work_dir := val })
  else (false, s)

/-- `set_server_port`: delegate to the external port setter, which may
reject the value (`ValueError`/`TypeError`). -/
def setServerPort (env : Env) (s : InterfaceState) (val : String) :
    Bool × InterfaceState :=
  if env.portOk val then (true, { s with netl_port := val }) else (false, s)

/-- The keys of `NetlOlcaReport.process_types`. -/
def processTypeCodes : List String :=
  ["EP", "MP", "BP", "IP", "EC", "TP", "RP", "WT", "AP"]

/-- `set_process_type`: upper-case the input, accept exactly the nine
recognized codes, and commit only on success. -/
def setProcessType (s : InterfaceState) (val : String) : Bool × InterfaceState :=
  let v := pyUpper val
  if v ∈ processTypeCodes then (true, { s with process_code := v })
  else (false, s)

/-- `set_product_system`: accept a UUID present in the product-system
listing; on success record it and cache the reference name on the
report object. -/
def setProductSystem (env : Env) (s : InterfaceState) (val : String) :
    Bool × InterfaceState :=
  if val ∈ env.psIds then
    (true, { s with product_sys_uid := val,
                    rd_reference_name := some (env.refName val) })
  else (false, s)

/-- `set_project_file`: the file must exist and `open_file` (the
external open-and-read) must not raise; only then commit. -/
def setProjectFile (env : Env) (s : InterfaceState) (val : String) :
    Bool × InterfaceState :=
  if env.isFile val then
    if env.openOk val then (true, { s with work_file := val }) else (false, s)
  else (false, s)

/-- `set_calc_file`: accept any existing file path. -/
def setCalcFile (env : Env) (s : InterfaceState) (val : String) :
    Bool × InterfaceState :=
  if env.isFile val then (true, { s with calc_file := val }) else (false, s)

/-- `prompt_working_dir`. -/
def promptWorkingDir (env : Env) (s : InterfaceState) (ins : List String) :
    Bool × InterfaceState × List String :=
  let (ans, ins) := readLine ins
  let (isDone, s) := checkVal s ans
  if isDone then (isDone, s, ins)
  else
    let (ok, ins) := checkAns ins
    if ok then
      let (d, s) := setWorkingDir env s ans
      (d, s, ins)
    else (isDone, s, ins)

/-- `prompt_server_port`. -/
def promptServerPort (env : Env) (s : InterfaceState) (ins : List String) :
    Bool × InterfaceState × List String :=
  let (ans, ins) := readLine ins
  let (isDone, s) := checkVal s ans
  if isDone then (isDone, s, ins)
  else
    let (ok, ins) := checkAns ins
    if ok then
      let (d, s) := setServerPort env s ans
      (d, s, ins)
    else (isDone, s, ins)

/-- `prompt_process_type`. -/
def promptProcessType (s : InterfaceState) (ins : List String) :
    Bool × InterfaceState × List String :=
  let (ans, ins) := readLine ins
  let (isDone, s) := checkVal s ans
  if isDone then (isDone, s, ins)
  else
    let (d, s) := setProcessType s ans
    (d, s, ins)

/-- The tail of `prompt_product_system` shared by the single-system
short circuit and the interactive path: integer parsing, the bounds
check and confirmation before `set_product_system`. -/
def promptProductSystemRest (env : Env) (s : InterfaceState) (ins : List String)
    (ans : String) (isDone : Bool) : Bool × InterfaceState × List String :=
  if isDone then (isDone, s, ins)
  else
    match pyInt ans with
    | none => (isDone, s, ins)
    | some n =>
      if n < 1 ∨ n > (env.numPS : Int) then (isDone, s, ins)
      else if env.numPS = 1 ∧ n = 1 then
        let uid := env.psIds.getD (n - 1).toNat ""
        let (d, s) := setProductSystem env s uid
        (d, s, ins)
      else
        let (ok, ins) := checkAns ins
        if ok then
          let uid := env.psIds.getD (n - 1).toNat ""
          let (d, s) := setProductSystem env s uid
          (d, s, ins)
        else (isDone, s, ins)

/-- `prompt_product_system`: with exactly one product system the
selection is short-circuited without reading input (answer `1`, not
done); otherwise the answer is read and passes the quit/skip check
first. -/
def promptProductSystem (env : Env) (s : InterfaceState) (ins : List String) :
    Bool × InterfaceState × List String :=
  if env.numPS = 1 then promptProductSystemRest env s ins "1" false
  else
    let (a, ins) := readLine ins
    let (d, s) := checkVal s a
    promptProductSystemRest env s ins a d

/-- The `while not is_done` loop of `assign_product_system`; `false`
means the fuel ran out with the loop still live. -/
def loopProductSystem (env : Env) : Nat → InterfaceState → List String →
    Bool × InterfaceState × List String
  | 0, s, ins => (false, s, ins)
  | k + 1, s, ins =>
    let (d, s, ins) := promptProductSystem env s ins
    if d then (true, s, ins) else loopProductSystem env k s ins

/-- `assign_product_system` (interactive branch). -/
def assignProductSystem (env : Env) (fuel : Nat) (s : InterfaceState)
    (ins : List String) : Bool × InterfaceState × List String :=
  loopProductSystem env fuel s ins

/-- `prompt_project_file`: re-scan the working directory, read a
selection, run it through the quit/skip check, integer parsing, bounds
check and confirmation; a successful `set_project_file` triggers
`assign_product_system`.  Note the integer parse is attempted even when
the quit/skip check already finished the prompt, exactly as in the
source. -/
def promptProjectFile (env : Env) (fuel : Nat) (s : InterfaceState)
    (ins : List String) : Bool × InterfaceState × List String :=
  let s := loadJsonSet env s s.work_dir
  let (ans, ins) := readLine ins
  let (isDone, s) := checkVal s ans
  match pyInt ans with
  | none => (isDone, s, ins)
  | some n =>
    if n < 1 ∨ n > (s.json_set.length : Int) then (isDone, s, ins)
    else
      let (ok, ins) := checkAns ins
      if ok then
        let pFile := s.json_set.getD (n - 1).toNat ""
        let (d, s) := setProjectFile env s pFile
        if d then
          let (_, s, ins) := assignProductSystem env fuel s ins
          (true, s, ins)
        else (false, s, ins)
      else (isDone, s, ins)

/-- The `while not is_done` loop of `assign_project_file`. -/
def loopProjectFile (env : Env) (fuel : Nat) : Nat → InterfaceState → List String →
    Bool × InterfaceState × List String
  | 0, s, ins => (false, s, ins)
  | k + 1, s, ins =>
    let (d, s, ins) := promptProjectFile env fuel s ins
    if d then (true, s, ins) else loopProjectFile env fuel k s ins

/-- The eight `make_param_visible` calls that follow a connection, in
source order (hide `1` and `2`; reveal `3 4 5 6 7 o`). -/
def applyConnectionToggles (s : InterfaceState) : InterfaceState :=
  let s := makeParamVisible s "1" false
  let s := makeParamVisible s "2" false
  let s := makeParamVisible s "3" true
  let s := makeParamVisible s "4" true
  let s := makeParamVisible s "5" true
  let s := makeParamVisible s "6" true
  let s := makeParamVisible s "7" true
  makeParamVisible s "o" true

/-- `assign_project_file` (interactive branch): run the prompt loop to
completion, then unconditionally apply the connection toggles and
redisplay the main menu.  The returned flag records whether the loop
finished (only then is the source's post-loop code reached). -/
def assignProjectFile (env : Env) (fuel : Nat) (s : InterfaceState)
    (ins : List String) : Bool × InterfaceState × List String :=
  let (d, s, ins) := loopProjectFile env fuel fuel s ins
  if d then (true, applyConnectionToggles s, ins)
  else (false, s, ins)

/-- `open_server`: connect, try to read; on failure warn and change
nothing; on success assign a product system and then apply the
connection toggles. -/
def openServer (env : Env) (fuel : Nat) (s : InterfaceState) (ins : List String) :
    Bool × InterfaceState × List String :=
  if env.readOk then
    let (d, s, ins) := assignProductSystem env fuel s ins
    if d then (true, applyConnectionToggles s, ins)
    else (false, s, ins)
  else (true, s, ins)

/-- `prompt_calculation_file`. -/
def promptCalculationFile (env : Env) (s : InterfaceState) (ins : List String) :
    Bool × InterfaceState × List String :=
  let s := loadExcelSet env s s.calc_dir
  let (ans, ins) := readLine ins
  let (isDone, s) := checkVal s ans
  match pyInt ans with
  | none => (isDone, s, ins)
  | some n =>
    if n < 1 ∨ n > (s.calc_set.length : Int) then (isDone, s, ins)
    else
      let (ok, ins) := checkAns ins
      if ok then
        let pFile := s.calc_set.getD (n - 1).toNat ""
        let (d, s) := setCalcFile env s pFile
        (d, s, ins)
      else (isDone, s, ins)

/-- `prompt_new_actor`: selection from the YAML actor list followed by
`add_to_project`. -/
def promptNewActor (env : Env) (s : InterfaceState) (ins : List String) :
    Bool × InterfaceState × List String :=
  let numNames := env.yamlActorCount
  let (ans, ins) := readLine ins
  let (isDone, s) := checkVal s ans
  if isDone then (isDone, s, ins)
  else
    match pyInt ans with
    | none => (isDone, s, ins)
    | some n =>
      if n < 1 ∨ n > (numNames : Int) then (isDone, s, ins)
      else
        let (ok, ins) := checkAns ins
        if ok then (env.addActorOk (n - 1).toNat, s, ins)
        else (isDone, s, ins)

/-- The `while not is_done` loop of `add_actor`. -/
def loopNewActor (env : Env) : Nat → InterfaceState → List String →
    Bool × InterfaceState × List String
  | 0, s, ins => (false, s, ins)
  | k + 1, s, ins =>
    let (d, s, ins) := promptNewActor env s ins
    if d then (true, s, ins) else loopNewActor env k s ins

/-- `add_actor`. -/
def addActor (env : Env) (fuel : Nat) (s : InterfaceState) (ins : List String) :
    Bool × InterfaceState × List String :=
  loopNewActor env fuel s ins

/-- `prompt_reviewer`: selection from the unique actor list, with the
extra `num_names + 1` entry branching into `add_actor` (after which the
source leaves `is_done` untouched); otherwise `set_reviewer` edits the
external project. -/
def promptReviewer (env : Env) (fuel : Nat) (s : InterfaceState)
    (ins : List String) : Bool × InterfaceState × List String :=
  let numNames := env.actorNames.length
  let (ans, ins) := readLine ins
  let (isDone, s) := checkVal s ans
  if isDone then (isDone, s, ins)
  else
    match pyInt ans with
    | none => (isDone, s, ins)
    | some n =>
      if n < 1 ∨ n > (numNames : Int) + 1 then (isDone, s, ins)
      else
        let (ok, ins) := checkAns ins
        if ok then
          if n > (numNames : Int) then
            let (_, s, ins) := addActor env fuel s ins
            (isDone, s, ins)
          else
            let rUid := env.actorUuids.getD (n - 1).toNat ""
            (env.setReviewerOk rUid, s, ins)
        else (isDone, s, ins)

/-! ## Concrete instances used by the theorems -/

deriving instance DecidableEq for Except

/-- The triangular distribution of the spec's uncertainty example:
only `max`, `min` and `mode` are set. -/
def triangleExample : Uncertainty :=
  { distribution_type := "TRIANGLE_DISTRIBUTION", maximum := some "13.0",
    minimum := some "5.0", mode := some "7.5" }

/-- A field state whose reference name carries an interior line with a
trailing space (legitimate: any fetched text can contain one). -/
def c8Fields : ReportFields := { reference_name := some "A \nB" }

/-- A small concrete collaborator environment for witnesses and
counterexamples: one JSON-LD file, two product systems, everything
reachable and succeeding. -/
def envA : Env :=
  { isDir := fun _ => true, isFile := fun _ => true,
    jsonFiles := fun _ => ["data/a.zip"],
    excelFiles := fun _ => ["calculations/w.xlsx"],
    openOk := fun _ => true, readOk := true, portOk := fun _ => true,
    numPS := 2, psIds := ["uid1", "uid2"], refName := fun _ => "Proc",
    actorNames := ["Reviewer One"], actorUuids := ["auid"],
    setReviewerOk := fun _ => true, yamlActorCount := 1,
    addActorOk := fun _ => true }

/-- The interpreter state during the dispatch loop (`run` sets the
running flag before any prompt is reached). -/
def runningState : InterfaceState := { initInterfaceState with is_running := true }

/-- The visibility relation the connection transition is supposed to
establish between the pre-state `s` and post-state `t`: the two connect
options hidden, the six post-connection options revealed, every other
flag untouched. -/
def connectedVisible (s t : InterfaceState) : Prop :=
  t.visible "1" = false ∧ t.visible "2" = false ∧ t.visible "3" = true ∧
  t.visible "4" = true ∧ t.visible "5" = true ∧ t.visible "6" = true ∧
  t.visible "7" = true ∧ t.visible "o" = true ∧
  ∀ c, c ∉ ["1", "2", "3", "4", "5", "6", "7", "o"] → t.visible c = s.visible c

/-! ## Helper lemmas -/

/-- Composing a run-collapsing pass for `p`, then one for `q`, then one
for underscores equals a single pass over the union class, provided `q`
does not match the underscore the earlier passes emit.  The flag
invariant says the third pass is mid-run whenever either earlier pass
is. -/
theorem replaceRunsAux_comp (p q : Char → Bool) (hq : q '_' = false) :
    ∀ (l : List Char) (a b c : Bool), ((a || b) = true → c = true) →
      replaceRunsAux (fun x => x == '_') c
        (replaceRunsAux q b (replaceRunsAux p a l))
      = replaceRunsAux (fun x => p x || q x || x == '_') c l := by
  intro l
  induction l with
  | nil => intro a b c _; simp [replaceRunsAux]
  | cons x xs ih =>
    intro a b c hinv
    cases hpx : p x with
    | true =>
      cases a with
      | true =>
        have hc : c = true := hinv (by simp)
        subst hc
        simp only [replaceRunsAux, hpx, if_true, Bool.true_or]
        exact ih true b true (fun _ => rfl)
      | false =>
        cases c with
        | true =>
          simp only [replaceRunsAux, hpx, hq, if_true, if_false, Bool.true_or,
            beq_self_eq_true, Bool.false_eq_true]
          exact ih true false true (fun _ => rfl)
        | false =>
          simp only [replaceRunsAux, hpx, hq, if_true, if_false, Bool.true_or,
            beq_self_eq_true, Bool.false_eq_true]
          exact congrArg (fun t => '_' :: t) (ih true false true (fun _ => rfl))
    | false =>
      cases hqx : q x with
      | true =>
        cases b with
        | true =>
          have hc : c = true := hinv (by simp)
          subst hc
          simp only [replaceRunsAux, hpx, hqx, if_true, if_false, Bool.false_or,
            Bool.true_or, Bool.false_eq_true]
          exact ih false true true (fun _ => rfl)
        | false =>
          cases c with
          | true =>
            simp only [replaceRunsAux, hpx, hqx, if_true, if_false, Bool.false_or,
              Bool.true_or, beq_self_eq_true, Bool.false_eq_true]
            exact ih false true true (fun _ => rfl)
          | false =>
            simp only [replaceRunsAux, hpx, hqx, if_true, if_false, Bool.false_or,
              Bool.true_or, beq_self_eq_true, Bool.false_eq_true]
            exact congrArg (fun t => '_' :: t) (ih false true true (fun _ => rfl))
      | false =>
        by_cases hux : x = '_'
        · subst hux
          cases c with
          | true =>
            simp only [replaceRunsAux, hpx, hqx, if_true, if_false, Bool.false_or,
              beq_self_eq_true, Bool.false_eq_true]
            exact ih false false true (fun _ => rfl)
          | false =>
            simp only [replaceRunsAux, hpx, hqx, if_true, if_false, Bool.false_or,
              beq_self_eq_true, Bool.false_eq_true]
            exact congrArg (fun t => '_' :: t) (ih false false true (fun _ => rfl))
        · have hux2 : (x == '_') = false := by simp [hux]
          simp only [replaceRunsAux, hpx, hqx, hux2, if_false, Bool.false_or,
            Bool.false_eq_true]
          exact congrArg (x :: ·) (ih false false false (by simp))

/-- The three sequential `re.sub` passes of `get_file_name` equal one
pass over the union class (whitespace, special characters, and the
underscore). -/
theorem threePass_eq_onePass (l : List Char) :
    replaceRuns (fun c => c == '_')
        (replaceRuns specialChar (replaceRuns pyIsSpaceChar l))
      = replaceRuns sanitizeClassChar l :=
  replaceRunsAux_comp pyIsSpaceChar specialChar (by decide) l false false false (by simp)

/-- Accumulating `acc += rstrip(line) + "\n"` over a list of lines is the
concatenation of the per-line normalizations. -/
theorem foldl_rstrip_lines : ∀ (ls : List (List Char)) (acc : List Char),
    ls.foldl (fun a line => a ++ rstripChars line ++ ['\n']) acc
      = acc ++ (ls.map (fun line => rstripChars line ++ ['\n'])).flatten := by
  intro ls
  induction ls with
  | nil => intro acc; simp
  | cons x xs ih =>
    intro acc
    rw [List.foldl_cons, ih, List.map_cons, List.flatten_cons]
    simp [List.append_assoc]

/-- `readlines` partitions the content: concatenating the returned
lines restores the translated text. -/
theorem readlinesAux_flatten : ∀ (l cur : List Char),
    (readlinesAux cur l).flatten = cur.reverse ++ l := by
  intro l
  induction l with
  | nil =>
    intro cur
    cases cur with
    | nil => rfl
    | cons c cs => simp [readlinesAux]
  | cons c cs ih =>
    intro cur
    by_cases h : c = '\n'
    · subst h
      simp [readlinesAux, ih]
    · simp [readlinesAux, h, ih]

/-- Universal-newline translation is the identity on carriage-return
free text. -/
theorem univNl_of_no_cr : ∀ (l : List Char), '\x0d' ∉ l → univNlChars l = l := by
  intro l
  induction l with
  | nil => intro _; rfl
  | cons c cs ih =>
    intro h
    have hc : ¬(c = '\x0d') := fun hh => h (by simp [hh])
    have ih2 := ih (fun hh => h (List.mem_cons_of_mem _ hh))
    rw [univNlChars.eq_def]
    simp [hc, ih2]

/-! ## Interpreter preservation lemmas

None of the interpreter's prompt or setter routines ever sets the
running flag back to `true` (only `run` does), and none of them touches
the visibility flags (only `make_param_visible` does); these lemmas
record both facts for every routine the claims traverse. -/

theorem checkVal_visible (s : InterfaceState) (v : String) :
    ((checkVal s v).2).visible = s.visible := by
  unfold checkVal quitInterface
  repeat' split
  all_goals rfl

theorem checkVal_false (s : InterfaceState) (v : String)
    (h : s.is_running = false) : ((checkVal s v).2).is_running = false := by
  unfold checkVal quitInterface
  repeat' split
  all_goals first | rfl | exact h

theorem setProductSystem_state (env : Env) (s : InterfaceState) (v : String) :
    ((setProductSystem env s v).2).visible = s.visible ∧
    ((setProductSystem env s v).2).is_running = s.is_running := by
  unfold setProductSystem
  repeat' split
  all_goals exact ⟨rfl, rfl⟩

theorem setProjectFile_state (env : Env) (s : InterfaceState) (v : String) :
    ((setProjectFile env s v).2).visible = s.visible ∧
    ((setProjectFile env s v).2).is_running = s.is_running := by
  unfold setProjectFile
  repeat' split
  all_goals exact ⟨rfl, rfl⟩

theorem setCalcFile_state (env : Env) (s : InterfaceState) (v : String) :
    ((setCalcFile env s v).2).visible = s.visible ∧
    ((setCalcFile env s v).2).is_running = s.is_running := by
  unfold setCalcFile
  repeat' split
  all_goals exact ⟨rfl, rfl⟩

theorem loadJsonSet_state (env : Env) (s : InterfaceState) (dir : String) :
    (loadJsonSet env s dir).visible = s.visible ∧
    (loadJsonSet env s dir).is_running = s.is_running := by
  unfold loadJsonSet
  dsimp only
  repeat' split
  all_goals exact ⟨rfl, rfl⟩

theorem loadExcelSet_state (env : Env) (s : InterfaceState) (dir : String) :
    (loadExcelSet env s dir).visible = s.visible ∧
    (loadExcelSet env s dir).is_running = s.is_running := by
  unfold loadExcelSet
  dsimp only
  repeat' split
  all_goals exact ⟨rfl, rfl⟩

theorem promptProductSystemRest_vis (env : Env) (s : InterfaceState)
    (ins : List String) (ans : String) (d : Bool) :
    ((promptProductSystemRest env s ins ans d).2.1).visible = s.visible := by
  unfold promptProductSystemRest
  repeat' split
  all_goals simp [setProductSystem_state]

theorem promptProductSystemRest_false (env : Env) (s : InterfaceState)
    (ins : List String) (ans : String) (d : Bool) (h : s.is_running = false) :
    ((promptProductSystemRest env s ins ans d).2.1).is_running = false := by
  unfold promptProductSystemRest
  repeat' split
  all_goals simp [setProductSystem_state, h]

theorem promptProductSystem_vis (env : Env) (s : InterfaceState) (ins : List String) :
    ((promptProductSystem env s ins).2.1).visible = s.visible := by
  unfold promptProductSystem
  split
  · exact promptProductSystemRest_vis env s ins "1" false
  · rw [promptProductSystemRest_vis, checkVal_visible]

theorem promptProductSystem_false (env : Env) (s : InterfaceState)
    (ins : List String) (h : s.is_running = false) :
    ((promptProductSystem env s ins).2.1).is_running = false := by
  unfold promptProductSystem
  split
  · exact promptProductSystemRest_false env s ins "1" false h
  · exact promptProductSystemRest_false env _ _ _ _ (checkVal_false s _ h)

theorem loopProductSystem_vis (env : Env) : ∀ (fuel : Nat) (s : InterfaceState)
    (ins : List String),
    ((loopProductSystem env fuel s ins).2.1).visible = s.visible := by
  intro fuel
  induction fuel with
  | zero => intro s ins; rfl
  | succ k ih =>
    intro s ins
    unfold loopProductSystem
    split
    next d s2 ins2 heq =>
      have hv := promptProductSystem_vis env s ins
      rw [heq] at hv
      split
      · exact hv
      · rw [ih, hv]

theorem loopProductSystem_false (env : Env) : ∀ (fuel : Nat) (s : InterfaceState)
    (ins : List String), s.is_running = false →
    ((loopProductSystem env fuel s ins).2.1).is_running = false := by
  intro fuel
  induction fuel with
  | zero => intro s ins h; exact h
  | succ k ih =>
    intro s ins h
    unfold loopProductSystem
    split
    next d s2 ins2 heq =>
      have hv := promptProductSystem_false env s ins h
      rw [heq] at hv
      split
      · exact hv
      · exact ih _ _ hv

theorem promptProjectFile_vis (env : Env) (fuel : Nat) (s : InterfaceState)
    (ins : List String) :
    ((promptProjectFile env fuel s ins).2.1).visible = s.visible := by
  unfold promptProjectFile assignProductSystem
  repeat' split
  all_goals try simp [loopProductSystem_vis, setProjectFile_state, checkVal_visible,
    loadJsonSet_state]
  all_goals repeat' split
  all_goals simp [loopProductSystem_vis, setProjectFile_state, checkVal_visible,
    loadJsonSet_state]

theorem loopProjectFile_vis (env : Env) (fuel : Nat) : ∀ (k : Nat)
    (s : InterfaceState) (ins : List String),
    ((loopProjectFile env fuel k s ins).2.1).visible = s.visible := by
  intro k
  induction k with
  | zero => intro s ins; rfl
  | succ k ih =>
    intro s ins
    unfold loopProjectFile
    split
    next d s2 ins2 heq =>
      have hv := promptProjectFile_vis env fuel s ins
      rw [heq] at hv
      split
      · exact hv
      · rw [ih, hv]

/-- `make_param_visible` on a known option code is the plain
visibility-flag update. -/
theorem makeParamVisible_mem (s : InterfaceState) (p : String) (v : Bool)
    (h : p ∈ paramCodes) :
    makeParamVisible s p v
      = { s with visible := fun c => if c = p then v else s.visible c } := by
  unfold makeParamVisible
  rw [if_pos h]

/-- The eight-toggle sequence establishes exactly the designated
post-connection visibility relative to any state with the same flags. -/
theorem applyConnectionToggles_spec (s0 s : InterfaceState)
    (h : s.visible = s0.visible) :
    connectedVisible s0 (applyConnectionToggles s) := by
  refine ⟨rfl, rfl, rfl, rfl, rfl, rfl, rfl, rfl, ?_⟩
  intro c hc
  simp only [List.mem_cons, List.not_mem_nil, or_false, not_or] at hc
  obtain ⟨h1, h2, h3, h4, h5, h6, h7, ho⟩ := hc
  have m1 : ("1" : String) ∈ paramCodes := by decide
  have m2 : ("2" : String) ∈ paramCodes := by decide
  have m3 : ("3" : String) ∈ paramCodes := by decide
  have m4 : ("4" : String) ∈ paramCodes := by decide
  have m5 : ("5" : String) ∈ paramCodes := by decide
  have m6 : ("6" : String) ∈ paramCodes := by decide
  have m7 : ("7" : String) ∈ paramCodes := by decide
  have m8 : ("o" : String) ∈ paramCodes := by decide
  simp [applyConnectionToggles, makeParamVisible_mem, m1, m2, m3, m4, m5, m6,
    m7, m8, h1, h2, h3, h4, h5, h6, h7, ho, h]

/-! ## C1: rendering purity -/

/-- C1, counterexample: with the creation date unset, the code falls
back to the wall clock, so two renderings of the identical (all
default) field state performed on different days produce different
text — rendering is not a pure function of field state alone, even
though the claim includes the unset-date case. -/
theorem C1_render_reads_clock_counterexample :
    createReportMarkdown initReportFields "2024-01-01"
      ≠ createReportMarkdown initReportFields "2024-01-02" := by
  intro h
  have h2 := congrArg String.data h
  simp only [createReportMarkdown, initReportFields, pyOr, String.data_append,
    List.append_assoc, List.append_cancel_left_eq] at h2
  have h3 := List.append_inj_left h2 (by decide)
  exact absurd h3 (by decide)

/-- C1, amended: rendering is a pure function of the field state
together with the current date; whenever the creation-date field is set
(and non-empty), the clock is never consulted, so re-rendering the same
field state yields byte-identical text. -/
theorem C1_render_pure_given_create_date (f : ReportFields) (d n1 n2 : String)
    (hc : f.create_date = some d) (hd : d ≠ "") :
    createReportMarkdown f n1 = createReportMarkdown f n2 := by
  simp only [createReportMarkdown, pyOr, hc]
  simp only [if_neg hd]

/-- Witness for the amended C1 theorem at a concrete field state. -/
theorem C1_render_pure_given_create_date_witness :
    createReportMarkdown { create_date := some "2024-06-01" } "a"
      = createReportMarkdown { create_date := some "2024-06-01" } "b" :=
  C1_render_pure_given_create_date _ "2024-06-01" "a" "b" rfl (by decide)

/-! ## C4: filename derivation -/

/-- C4: `get_file_name` rejects unrecognized extensions with the
invalid-extension error; for a set reference name and a valid extension
it returns the sanitized stem (one collapse pass over whitespace,
special characters and underscores, with a trailing underscore
dropped) plus the normalized extension (`.txt` becoming `.md`); and the
spec's concrete example holds. -/
theorem C4_get_file_name_spec :
    (∀ (nm ext : String),
      (extNorm ext ∉ validExt →
        getFileName (some nm) ext
          = .error ("Invalid file extension: " ++ sq ++ extNorm ext ++ sq)) ∧
      (nm ≠ "" → extNorm ext ∈ validExt →
        getFileName (some nm) ext
          = .ok (specSanitize nm ++ txtToMd (extNorm ext)))) ∧
    getFileName (some "Aluminum, production mix, shape casted") "md"
      = .ok "Aluminum_production_mix_shape_casted.md" := by
  refine ⟨fun nm ext => ⟨fun hinv => ?_, fun hnm hval => ?_⟩, by decide⟩
  · simp only [getFileName]
    rw [if_pos hinv]
  · simp only [getFileName, specSanitize, pyTruthy]
    rw [if_neg (not_not_intro hval), threePass_eq_onePass]
    simp [hnm]

/-- Witness for C4, instantiating the conditional conjunct. -/
theorem C4_get_file_name_spec_witness :
    "casted name" ≠ "" ∧ extNorm "pdf" ∈ validExt ∧
    getFileName (some "casted name") "pdf"
      = .ok (specSanitize "casted name" ++ txtToMd (extNorm "pdf")) :=
  ⟨by decide, by decide,
    (C4_get_file_name_spec.1 "casted name" "pdf").2 (by decide) (by decide)⟩

/-! ## C5: formula rendering -/

/-- C5, counterexample: with no formula text (Python `None` or the
empty string), `_fix_formula` returns the empty string immediately —
not, as the claim states, the normalized name alone in block math
delimiters (its branch for that is unreachable dead code). -/
theorem C5_name_only_formula_counterexample :
    fixFormula (fun s => some s) (some "p") none false = .ok "" ∧
    fixFormula (fun s => some s) (some "p") (some "") false = .ok "" ∧
    (Except.ok "" : Except String String) ≠ .ok ("$$\n" ++ "p" ++ "\n$$") := by
  refine ⟨by decide, by decide, by decide⟩

/-- C5, amended: for non-empty formula text, a symbolic failure on
either side yields the literal `name = formula` string with `*` and `_`
markdown-escaped (no exception propagates); symbolic success on both
sides yields the equation in block math delimiters; and missing formula
text yields the empty string. -/
theorem C5_fix_formula_fallback :
    ∀ (sym : String → Option String) (pName : Option String) (t L R : String),
      (t ≠ "" →
        ((pyTruthy pName = true ∧ sym (pName.getD "") = none) ∨ sym t = none) →
        fixFormula sym pName (some t) false
          = .ok (escapeMd
              (if pyTruthy pName then pName.getD "" ++ " = " ++ t else t))) ∧
      (t ≠ "" →
        (pyTruthy pName = true → sym (pName.getD "") = some L) →
        sym t = some R →
        fixFormula sym pName (some t) false
          = .ok ("$$\n" ++ (if pyTruthy pName then L ++ " = " ++ R else R)
              ++ "\n$$")) ∧
      fixFormula sym pName none false = .ok "" := by
  intro sym pName t L R
  refine ⟨fun ht hf => ?_, fun ht hl hr => ?_, rfl⟩
  · have htr : pyTruthy (some t) = true := by simp [pyTruthy, ht]
    by_cases hn : pyTruthy pName = true
    · rcases hf with ⟨_, h2⟩ | h2 <;> simp [fixFormula, htr, hn, h2]
    · have hn2 : pyTruthy pName = false := by simpa using hn
      rcases hf with ⟨h1, _⟩ | h2
      · exact absurd h1 hn
      · simp [fixFormula, htr, hn2, h2]
  · have htr : pyTruthy (some t) = true := by simp [pyTruthy, ht]
    by_cases hn : pyTruthy pName = true
    · simp [fixFormula, htr, hn, hl hn, hr]
    · have hn2 : pyTruthy pName = false := by simpa using hn
      simp [fixFormula, htr, hn2, hr]

/-- Witness for the amended C5 theorem: a failing oracle falls back to
the escaped literal, a succeeding oracle produces block math. -/
theorem C5_fix_formula_fallback_witness :
    fixFormula (fun _ => none) (some "a_b") (some "x*y") false
      = .ok (escapeMd
          (if pyTruthy (some "a_b") then (some "a_b").getD "" ++ " = " ++ "x*y"
           else "x*y")) ∧
    fixFormula (fun s => some s) none (some "xy") false
      = .ok ("$$\n" ++ (if pyTruthy (none : Option String)
          then "" ++ " = " ++ "xy" else "xy") ++ "\n$$") :=
  ⟨(C5_fix_formula_fallback (fun _ => none) (some "a_b") "x*y" "" "").1
      (by decide) (Or.inr rfl),
   (C5_fix_formula_fallback (fun s => some s) none "xy" "" "xy").2.1
      (by decide) (fun h => by simp [pyTruthy] at h) rfl⟩

/-! ## C7: uncertainty rendering -/

/-- C7: a parameter without uncertainty renders as `"none"`; one with
uncertainty renders as the title-cased distribution name and the
non-null members of the fixed seven-slot order; the spec's triangular
example renders exactly as stated. -/
theorem C7_fix_uncertainty_spec :
    (∀ p : Parameter, p.uncertainty = none → fixUncertainty p = "none") ∧
    (∀ u : Uncertainty, fixUncertainty ⟨some u⟩ = specUncertainty u) ∧
    fixUncertainty ⟨some triangleExample⟩
      = "Triangle Distribution (max:13.0, min:5.0, mode:7.5)" := by
  refine ⟨fun p h => ?_, fun u => ?_, by decide⟩
  · simp [fixUncertainty, h]
  · obtain ⟨dt, g1, g2, mx, av, mn, md, sd⟩ := u
    cases g1 <;> cases g2 <;> cases mx <;> cases av <;> cases mn <;>
      cases md <;> cases sd <;> rfl

/-- Witness for C7 at the no-uncertainty parameter and the triangular
example. -/
theorem C7_fix_uncertainty_spec_witness :
    fixUncertainty ⟨none⟩ = "none" ∧
    fixUncertainty ⟨some triangleExample⟩ = specUncertainty triangleExample :=
  ⟨C7_fix_uncertainty_spec.1 ⟨none⟩ rfl,
   C7_fix_uncertainty_spec.2.1 triangleExample⟩

/-! ## C8: persistence round trip -/

set_option maxRecDepth 10000 in
/-- C8, counterexample: the write/read cycle rstrips every line, so a
field state whose text carries an interior line with a trailing space
reads back changed within its first 31 characters — a change no
trailing-newline normalization accounts for. -/
theorem C8_roundtrip_counterexample :
    readReportMarkdown (saveMarkdown c8Fields "2024-01-01")
        ≠ createReportMarkdown c8Fields "2024-01-01" ∧
    (readReportMarkdown (saveMarkdown c8Fields "2024-01-01")).data.take 31
        ≠ (createReportMarkdown c8Fields "2024-01-01").data.take 31 := by
  have h31 : (readReportMarkdown (saveMarkdown c8Fields "2024-01-01")).data.take 31
      = "# Overview\n\n## Process Name\nA\nB".data := by decide
  have g31 : (createReportMarkdown c8Fields "2024-01-01").data.take 31
      = "# Overview\n\n## Process Name\nA \n".data := by decide
  constructor
  · intro h
    have := congrArg (fun s => s.data.take 31) h
    simp only at this
    rw [h31, g31] at this
    exact absurd this (by decide)
  · intro h
    rw [h31, g31] at h
    exact absurd h (by decide)

/-- C8, amended: reading back a just-saved report yields the rendered
text with every line stripped of trailing whitespace and re-terminated
with a newline; the cycle is the identity exactly on carriage-return
free texts whose lines are already in that normal form (the template's
final indented line never is, so the cycle always rewrites at least
that line). -/
theorem C8_roundtrip_normalizes_line_ws :
    (∀ (f : ReportFields) (now : String),
      readReportMarkdown (saveMarkdown f now)
        = normalizeLineWs (createReportMarkdown f now)) ∧
    (∀ s : String, '\x0d' ∉ s.data →
      (∀ line ∈ pyReadlines s.data, rstripChars line ++ ['\n'] = line) →
      readReportMarkdown s = s) := by
  constructor
  · intro f now
    simp only [readReportMarkdown, normalizeLineWs, saveMarkdown]
    rw [foldl_rstrip_lines]
    simp
  · intro s hcr hfix
    simp only [readReportMarkdown]
    rw [univNl_of_no_cr _ hcr, foldl_rstrip_lines]
    have hmap : (pyReadlines s.data).map (fun line => rstripChars line ++ ['\n'])
        = (pyReadlines s.data).map id := List.map_congr_left (fun a ha => hfix a ha)
    rw [hmap, List.map_id, pyReadlines, readlinesAux_flatten]
    obtain ⟨l⟩ := s
    simp

/-- Witness for the amended C8 theorem: the all-default report, and a
one-line already-normal text on which the cycle is the identity. -/
theorem C8_roundtrip_normalizes_line_ws_witness :
    readReportMarkdown (saveMarkdown initReportFields "2024-01-01")
        = normalizeLineWs (createReportMarkdown initReportFields "2024-01-01") ∧
    readReportMarkdown "ab\n" = "ab\n" :=
  ⟨C8_roundtrip_normalizes_line_ws.1 initReportFields "2024-01-01",
   C8_roundtrip_normalizes_line_ws.2 "ab\n" (by decide) (by decide)⟩

/-! ## C9: process-type setter -/

/-- C9: `set_process_type` upper-cases its input and succeeds exactly
on the nine recognized codes, committing the upper-cased code; any
other input returns `False` and leaves the state untouched. -/
theorem C9_set_process_type_spec :
    ∀ (s : InterfaceState) (val : String),
      ((setProcessType s val).1 = true ↔ pyUpper val ∈ processTypeCodes) ∧
      ((setProcessType s val).2.process_code
        = if pyUpper val ∈ processTypeCodes then pyUpper val
          else s.process_code) ∧
      (pyUpper val ∉ processTypeCodes → (setProcessType s val).2 = s) := by
  intro s val
  by_cases h : pyUpper val ∈ processTypeCodes
  · simp [setProcessType, h]
  · simp [setProcessType, h]

/-- Witness for C9: `bp` is accepted case-insensitively, `zz` is
rejected with the state unchanged. -/
theorem C9_set_process_type_spec_witness :
    (setProcessType initInterfaceState "bp").1 = true ∧
    (setProcessType initInterfaceState "zz").2 = initInterfaceState :=
  ⟨(C9_set_process_type_spec initInterfaceState "bp").1.mpr (by decide),
   (C9_set_process_type_spec initInterfaceState "zz").2.2 (by decide)⟩

/-! ## C10: default report name -/

/-- C10: with the reference name unset (`None` or empty), any valid
extension yields the fixed default stem `report` with the normalized
extension (`.txt` silently mapped to `.md`). -/
theorem C10_default_report_name :
    ∀ ext : String, extNorm ext ∈ validExt →
      getFileName none ext = .ok ("report" ++ txtToMd (extNorm ext)) ∧
      getFileName (some "") ext = .ok ("report" ++ txtToMd (extNorm ext)) := by
  intro ext h
  constructor <;>
    · simp only [getFileName]
      rw [if_neg (not_not_intro h)]
      simp [pyTruthy]

/-- Witness for C10 at the `.txt` extension. -/
theorem C10_default_report_name_witness :
    extNorm "txt" ∈ validExt ∧
    getFileName none "txt" = .ok ("report" ++ txtToMd (extNorm "txt")) :=
  ⟨by decide, (C10_default_report_name "txt" (by decide)).1⟩

/-- C3, amended: at each of the seven value prompts (working directory,
project file, server port, product system when shown, process type,
reviewer, calculation workbook), entering `q` or `quit` in any letter
case transitions the session to stopped, regardless of menu depth; the
yes/no confirmation prompt is excluded (see the counterexample). -/
theorem C3_quit_keyword_stops_session :
    ∀ (env : Env) (s : InterfaceState) (rest : List String) (q : String),
      (pyLower q = "q" ∨ pyLower q = "quit") →
      (promptWorkingDir env s (q :: rest)).2.1.is_running = false ∧
      (promptServerPort env s (q :: rest)).2.1.is_running = false ∧
      (promptProcessType s (q :: rest)).2.1.is_running = false ∧
      (env.numPS ≠ 1 →
        (promptProductSystem env s (q :: rest)).2.1.is_running = false) ∧
      (∀ fuel, (promptProjectFile env fuel s (q :: rest)).2.1.is_running = false) ∧
      (promptCalculationFile env s (q :: rest)).2.1.is_running = false ∧
      (∀ fuel, (promptReviewer env fuel s (q :: rest)).2.1.is_running = false) := by
  intro env s rest q hq
  have hcv : ∀ s' : InterfaceState, checkVal s' q = (true, quitInterface s') := by
    intro s'
    unfold checkVal
    rcases hq with h | h <;> simp [h]
  refine ⟨?_, ?_, ?_, ?_, ?_, ?_, ?_⟩
  · simp [promptWorkingDir, readLine, hcv, quitInterface]
  · simp [promptServerPort, readLine, hcv, quitInterface]
  · simp [promptProcessType, readLine, hcv, quitInterface]
  · intro hne
    simp [promptProductSystem, hne, readLine, hcv, promptProductSystemRest,
      quitInterface]
  · intro fuel
    unfold promptProjectFile assignProductSystem
    simp only [readLine, List.headD, List.tail_cons, hcv]
    repeat' split
    all_goals
      simp [quitInterface, setProjectFile_state, loopProductSystem_false]
  · unfold promptCalculationFile
    simp only [readLine, List.headD, List.tail_cons, hcv]
    repeat' split
    all_goals simp [quitInterface, setCalcFile_state]
  · intro fuel
    simp [promptReviewer, readLine, hcv, quitInterface]

/-- C3, counterexample: entering the quit keyword at the yes/no
confirmation prompt does not stop the session — `check_ans` treats
anything but `y`/`yes` as "no", so after answering `8080` to the port
prompt and `q` to the confirmation, the prompt is not done and the
session is still running. -/
theorem C3_confirm_prompt_quit_counterexample :
    (promptServerPort envA runningState ["8080", "q"]).1 = false ∧
    (promptServerPort envA runningState ["8080", "q"]).2.1.is_running = true :=
  ⟨by decide, by decide⟩

/-- Witness for the amended C3 theorem at a concrete environment,
state and quit spellings. -/
theorem C3_quit_keyword_stops_session_witness :
    (promptWorkingDir envA runningState ["q"]).2.1.is_running = false ∧
    (promptProjectFile envA 1 runningState ["QUIT"]).2.1.is_running = false :=
  ⟨(C3_quit_keyword_stops_session envA runningState [] "q" (Or.inl (by decide))).1,
   (C3_quit_keyword_stops_session envA runningState [] "QUIT"
      (Or.inr (by decide))).2.2.2.2.1 1⟩

/-- C2, amended: over the IPC path (`open_server`) a failed read
changes nothing at all, and a successful read followed by the completed
product-system assignment applies exactly the designated eight toggles
as one step; over the file path (`assign_project_file`) the same eight
toggles are applied together whenever the prompt loop finishes —
including when the user abandons the attempt (see the counterexample) —
and no visibility flag changes while the loop is still running. -/
theorem C2_visibility_transition :
    ∀ (env : Env) (fuel : Nat) (s : InterfaceState) (ins : List String),
      (env.readOk = false → (openServer env fuel s ins).2.1 = s) ∧
      (env.readOk = true → (openServer env fuel s ins).1 = true →
        connectedVisible s (openServer env fuel s ins).2.1) ∧
      ((assignProjectFile env fuel s ins).1 = true →
        connectedVisible s (assignProjectFile env fuel s ins).2.1) ∧
      ((assignProjectFile env fuel s ins).1 = false →
        (assignProjectFile env fuel s ins).2.1.visible = s.visible) := by
  intro env fuel s ins
  refine ⟨fun hro => ?_, fun hro hdone => ?_, fun hdone => ?_, fun hdone => ?_⟩
  · simp [openServer, hro]
  · unfold openServer at hdone ⊢
    rw [if_pos hro] at hdone ⊢
    have hv := loopProductSystem_vis env fuel s ins
    rcases hd : assignProductSystem env fuel s ins with ⟨d, s2, ins2⟩
    rw [show loopProductSystem env fuel s ins
        = assignProductSystem env fuel s ins from rfl, hd] at hv
    cases d
    · simp [hd] at hdone
    · exact applyConnectionToggles_spec s s2 hv
  · unfold assignProjectFile at hdone ⊢
    have hv := loopProjectFile_vis env fuel fuel s ins
    rcases hd : loopProjectFile env fuel fuel s ins with ⟨d, s2, ins2⟩
    rw [hd] at hv
    cases d
    · simp [hd] at hdone
    · exact applyConnectionToggles_spec s s2 hv
  · unfold assignProjectFile at hdone ⊢
    have hv := loopProjectFile_vis env fuel fuel s ins
    rcases hd : loopProjectFile env fuel fuel s ins with ⟨d, s2, ins2⟩
    rw [hd] at hv
    cases d
    · exact hv
    · simp [hd] at hdone

/-- C2, counterexample: abandoning the project-file prompt with a blank
line (the "skip" answer) still completes the loop, after which
`assign_project_file` unconditionally applies the toggles: option `3`
becomes visible although no file was ever opened (`work_file` is still
empty), contradicting the claim that no visibility flag changes when
the connection attempt is abandoned. -/
theorem C2_toggles_on_abandoned_connection_counterexample :
    (assignProjectFile envA 1 runningState [""]).1 = true ∧
    (assignProjectFile envA 1 runningState [""]).2.1.work_file = "" ∧
    (assignProjectFile envA 1 runningState [""]).2.1.visible "3" = true ∧
    runningState.visible "3" = false :=
  ⟨by decide, by decide, by decide, by decide⟩

/-- Witness for the amended C2 theorem: a failing IPC read leaves the
state untouched, and a finished project-file prompt loop establishes
the designated visibility. -/
theorem C2_visibility_transition_witness :
    (openServer { envA with readOk := false } 1 runningState []).2.1
        = runningState ∧
    connectedVisible runningState (assignProjectFile envA 1 runningState [""]).2.1 :=
  ⟨(C2_visibility_transition { envA with readOk := false } 1 runningState []).1 rfl,
   (C2_visibility_transition envA 1 runningState [""]).2.2.1 (by decide)⟩

/-- C6, counterexample: the query (review) sub-menu prints only the
`q` navigation option — `m` is missing — so not every category sub-menu
is followed by both constant navigation options. -/
theorem C6_query_menu_counterexample :
    "m" ∉ query_codes initShow ∧
    query_codes initShow ≠ menuCategoryCodes "query" initShow ++ ["m", "q"] :=
  ⟨by decide, by decide⟩

/-- C6, amended: every category sub-menu iterates the option codes in
Python `sorted` order — proved lexicographic by the explicit sorted
enumeration and the adjacent-pairs check — filtered to the currently
visible options of its category; the connection, report, publish (with
pandoc available), edit and misc menus then print `m` and `q`, while
the query menu prints only `q`. -/
theorem C6_submenu_rendering :
    sortStr paramCodes
      = ["1", "1a", "1b", "2", "2a", "2b", "3", "3a", "3b", "3c", "3d",
         "4", "4a", "4b", "4c", "5", "5a", "5b", "5c", "6", "7",
         "e", "e1", "e2", "h", "m", "o", "p", "q"] ∧
    chainSorted (sortStr paramCodes) = true ∧
    ∀ visible : String → Bool,
      connect_json_codes visible
          = menuCategoryCodes "connection_json" visible ++ ["m", "q"] ∧
      connect_olca_codes visible
          = menuCategoryCodes "connection_olca" visible ++ ["m", "q"] ∧
      report_menu_codes visible
          = menuCategoryCodes "report" visible ++ ["m", "q"] ∧
      publish_menu_codes false visible
          = menuCategoryCodes "publish" visible ++ ["m", "q"] ∧
      edit_codes visible = menuCategoryCodes "edit" visible ++ ["m", "q"] ∧
      misc_codes visible = menuCategoryCodes "misc" visible ++ ["m", "q"] ∧
      query_codes visible = menuCategoryCodes "query" visible ++ ["q"] := by
  refine ⟨by decide, by decide, fun visible => ⟨rfl, rfl, rfl, ?_, rfl, rfl, rfl⟩⟩
  simp [publish_menu_codes, menuCategoryCodes]

end UpTemplate
